import Mathlib

/-!
Verification of the arc-length parameterization and keyframe-writing logic of
the motion-curve-generator Blender add-on (src/motion_curve_generator.py).

The Python code manipulates host (Blender) objects; here those objects are
shallowly embedded as plain records.  Point coordinates and keyframe values are
modelled as real numbers (the Python code computes with floats); a Python
runtime error (ZeroDivisionError, IndexError, uncaught AttributeError) is
modelled by an Option/none result or an explicit error status.
-/

open Classical

/-- A 3D vector, the model of a mathutils Vector coordinate (motion-path point
coordinates, bezier control-point coordinates). -/
structure Vec3 where
  x : ℝ
  y : ℝ
  z : ℝ

instance : Inhabited Vec3 := ⟨⟨0, 0, 0⟩⟩

/-- Componentwise vector subtraction, the model of mathutils Vector subtraction
(the expression next_point - point in the source). -/
def Vec3.sub (a b : Vec3) : Vec3 := ⟨a.x - b.x, a.y - b.y, a.z - b.z⟩

/-- Euclidean norm, the model of the mathutils Vector.length property used at
line 18 of the source. -/
noncomputable def Vec3.length (v : Vec3) : ℝ :=
  Real.sqrt (v.x ^ 2 + v.y ^ 2 + v.z ^ 2)

/-- The model of a Blender MotionPath: the sampled points (their co vectors)
and the frame_start attribute. -/
structure MotionPath where
  points : List Vec3
  frame_start : ℤ

/-- One loop step state of compute_motion_path_cumulative_length (lines 15-19
of the source): given the previous point, the remaining points and the running
total_length, produce the cumulative lengths written by the remaining
iterations together with the final total_length. -/
noncomputable def cumulative_length_loop : Vec3 → List Vec3 → ℝ → List ℝ × ℝ
  | _, [], total_length => ([], total_length)
  | point, next_point :: rest, total_length =>
    let total2 := total_length + (Vec3.sub next_point point).length
    let r := cumulative_length_loop next_point rest total2
    (total2 :: r.1, r.2)

/-- The model of compute_motion_path_cumulative_length (lines 10-21 of the
source): returns the list cumulative_lengths (entry 0 stays 0, entry i+1 is the
running total after segment i) and the final total_length. -/
noncomputable def compute_motion_path_cumulative_length
    (motion_path : MotionPath) : List ℝ × ℝ :=
  match motion_path.points with
  | [] => ([], 0)
  | point :: rest =>
    let r := cumulative_length_loop point rest 0
    (0 :: r.1, r.2)

/-- The model of one keyframe of an FCurve: its co pair (frame, value) and its
interpolation mode string. -/
structure Keyframe where
  co : ℝ × ℝ
  interpolation : String

instance : Inhabited Keyframe := ⟨⟨(0, 0), "BEZIER"⟩⟩

/-- The model of one bezier control point of a spline: its co vector and the
two handle type strings. -/
structure BezierPoint where
  co : Vec3
  handle_left_type : String
  handle_right_type : String

instance : Inhabited BezierPoint := ⟨⟨default, "FREE", "FREE"⟩⟩

/-- The model of a Blender spline as produced by create_curve_from_motion_path:
its type string and its bezier control points. -/
structure SplineModel where
  type : String
  bezier_points : List BezierPoint

/-- The spline built at lines 29-37 of the source: a single BEZIER spline with
one control point per motion-path point (splines.new gives one point and
bezier_points.add(n_segments) brings the count to n_points), each point
receiving the motion-path point coordinate and AUTO handles. -/
def bezier_spline_from_points (points : List Vec3) : SplineModel :=
  ⟨"BEZIER", points.map (fun point => ⟨point, "AUTO", "AUTO"⟩)⟩

/-- The observable result of a successful create_curve_from_motion_path run:
the spline of the new curve datablock and the keyframes of the eval_time
FCurve of the action assigned to it. -/
structure CurveResult where
  spline : SplineModel
  keyframes : List Keyframe

/-- The model of create_curve_from_motion_path (lines 24-71 of the source).
A none result models a Python runtime error:
for an empty motion path the statement keyframe_points[0].co at line 56 raises
IndexError; when total_length = 0 and the loop at lines 59-66 runs at least
once (n_segments >= 1), the division at line 60 raises ZeroDivisionError in
its first iteration (the division is not guarded).  Otherwise the result holds
the spline and the eval_time keyframes exactly as written by lines 55-66:
keyframe 0 at (frame_start, 0), keyframe segment_idx + 1 at
(segment_idx + 1, cumulative_lengths[segment_idx] / total_length * 100), all
with LINEAR interpolation. -/
noncomputable def create_curve_from_motion_path
    (motion_path : MotionPath) : Option CurveResult :=
  match motion_path.points with
  | [] => none
  | _ :: rest =>
    let n_segments := rest.length
    let r := compute_motion_path_cumulative_length motion_path
    let cumulative_lengths := r.1
    let total_length := r.2
    if total_length = 0 ∧ 1 ≤ n_segments then
      none
    else
      some
        { spline := bezier_spline_from_points motion_path.points
          keyframes :=
            ⟨((motion_path.frame_start : ℝ), 0), "LINEAR"⟩ ::
              (List.range n_segments).map (fun (segment_idx : ℕ) =>
                ⟨((segment_idx : ℝ) + 1,
                    cumulative_lengths.getD segment_idx 0 / total_length * 100),
                  "LINEAR"⟩) }

/-- The axis EnumProperty of OBJECT_OT_transfer_curve_animation (lines
130-142 of the source); these six items are the only values the host lets the
property take. -/
inductive Axis where
  | POS_X | POS_Y | POS_Z | NEG_X | NEG_Y | NEG_Z
deriving DecidableEq

/-- The dictionary at lines 186-194 of the source, mapping the chosen axis to
the array index of the location FCurve. -/
def Axis.location_index : Axis → ℕ
  | .POS_X => 0
  | .POS_Y => 1
  | .POS_Z => 2
  | .NEG_X => 0
  | .NEG_Y => 1
  | .NEG_Z => 2

/-- The test self.axis.startswith of the NEG prefix at line 203 of the source:
of the six EnumProperty item strings, exactly NEG_X, NEG_Y and NEG_Z start
with that prefix. -/
def Axis.is_negative : Axis → Bool
  | .NEG_X => true
  | .NEG_Y => true
  | .NEG_Z => true
  | _ => false

/-- The model of an FCurve: its data_path, array_index and keyframes. -/
structure FCurveModel where
  data_path : String
  array_index : ℕ
  keyframe_points : List Keyframe

/-- The model of a Blender action: its FCurve collection. -/
structure ActionModel where
  fcurves : List FCurveModel

/-- The model of an AnimData block: its (possibly unset) action. -/
structure AnimationDataModel where
  action : Option ActionModel

/-- The model of a spline of the selected curve as seen by the transfer
operator; calc_length holds the value the host API Spline.calc_length()
returns for it (an external computation this code only calls). -/
structure SplineData where
  calc_length : ℝ

/-- The model of a selected object as read by
OBJECT_OT_transfer_curve_animation.execute: its type string, the splines of
its data block and the animation data of its data block (none models a None
attribute). -/
structure TransferObject where
  type : String
  splines : List SplineData
  animation_data : Option AnimationDataModel

/-- How a run of OBJECT_OT_transfer_curve_animation.execute ends: a reported
error with return value CANCELLED, a FINISHED return, or an uncaught Python
AttributeError propagating out of execute. -/
inductive ExecStatus where
  | CANCELLED | FINISHED | EXCEPTION_raised
deriving DecidableEq

/-- The observable outcome of OBJECT_OT_transfer_curve_animation.execute: how
it ended, whether bpy.data.actions.new was called, and the location FCurve of
the action assigned to the target object (none when the target's animation
data was never touched). -/
structure ExecOutcome where
  status : ExecStatus
  new_action_created : Bool
  target_animation : Option FCurveModel

/-- The loop at lines 156-160 of the source: scan the selected objects,
remembering the last object of type CURVE and the last object of any other
type (both None when no such object occurs). -/
def find_curve_and_target (selected_objects : List TransferObject) :
    Option TransferObject × Option TransferObject :=
  selected_objects.foldl
    (fun acc obj =>
      if obj.type = "CURVE" then (some obj, acc.2) else (acc.1, some obj))
    (none, none)

/-- The model of OBJECT_OT_transfer_curve_animation.execute (lines 144-212 of
the source).  The validation chain mirrors lines 146-178: wrong selection
count, missing curve or target, spline count different from 1, and an
AttributeError from curve.data.animation_data being None or its action being
None (caught by the except at line 176) all report an error and return
CANCELLED before any action is created.  When
action.fcurves.find of eval_time returns None, no AttributeError is raised at
line 173, so execution continues: a new action is created (line 181) and
assigned to the target (lines 182-183), the location FCurve is created (line
185), and then line 197 reads keyframe_points of None, an AttributeError no
handler catches.  Otherwise the keyframe loop at lines 199-207 writes, at
index i, the co pair (i, pos) with LINEAR interpolation, where pos is the
eval_time keyframe value divided by 100, times the spline length, negated for
a NEG axis. -/
noncomputable def transfer_curve_animation_execute (axis : Axis)
    (selected_objects : List TransferObject) : ExecOutcome :=
  if selected_objects.length ≠ 2 then
    ⟨.CANCELLED, false, none⟩
  else
    match (find_curve_and_target selected_objects).1,
        (find_curve_and_target selected_objects).2 with
    | some curve, some _target =>
      match curve.splines with
      | [spline] =>
        let curve_length := spline.calc_length
        match curve.animation_data with
        | none => ⟨.CANCELLED, false, none⟩
        | some animation_data =>
          match animation_data.action with
          | none => ⟨.CANCELLED, false, none⟩
          | some action =>
            match action.fcurves.find?
                (fun f => f.data_path == "eval_time" && f.array_index == 0) with
            | none =>
              ⟨.EXCEPTION_raised, true, some ⟨"location", axis.location_index, []⟩⟩
            | some fcurve_eval_time =>
              ⟨.FINISHED, true,
                some ⟨"location", axis.location_index,
                  (List.range fcurve_eval_time.keyframe_points.length).map
                    (fun (i : ℕ) =>
                      let progress :=
                        (fcurve_eval_time.keyframe_points.getD i default).co.2 / 100
                      let pos := progress * curve_length
                      let pos2 := if axis.is_negative then -pos else pos
                      ⟨((i : ℝ), pos2), "LINEAR"⟩)⟩⟩
      | _ => ⟨.CANCELLED, false, none⟩
    | _, _ => ⟨.CANCELLED, false, none⟩

/-- The origin, a concrete evaluation point. -/
noncomputable def v000 : Vec3 := ⟨0, 0, 0⟩

/-- The unit point on the x axis, a concrete evaluation point. -/
noncomputable def v100 : Vec3 := ⟨1, 0, 0⟩

/-- The curve result of a completed run on the two-point unit path. -/
noncomputable def unitCurveResult : CurveResult :=
  ⟨bezier_spline_from_points [v000, v100],
    [⟨(1, 0), "LINEAR"⟩, ⟨(1, 0), "LINEAR"⟩]⟩

/-- A concrete eval_time FCurve with a single keyframe of value 50. -/
noncomputable def evalTimeFCurve : FCurveModel :=
  ⟨"eval_time", 0, [⟨(0, 50), "LINEAR"⟩]⟩

/-- A concrete selected curve object with one spline of length 2 and an
action holding the concrete eval_time FCurve. -/
noncomputable def curveObj : TransferObject :=
  ⟨"CURVE", [⟨2⟩], some ⟨some ⟨[evalTimeFCurve]⟩⟩⟩

/-- A concrete selected target object (not a curve). -/
noncomputable def meshObj : TransferObject :=
  ⟨"MESH", [], none⟩

/-- A concrete selected curve object with one spline and an action, but
without an eval_time FCurve. -/
noncomputable def curveObjNoEval : TransferObject :=
  ⟨"CURVE", [⟨2⟩], some ⟨some ⟨[]⟩⟩⟩

/-- A mathutils vector length is a square root, hence nonnegative. -/
theorem Vec3.length_nonneg (v : Vec3) : 0 ≤ v.length :=
  Real.sqrt_nonneg _

/-- The loop writes one cumulative entry per remaining point. -/
theorem cumulative_length_loop_fst_length (l : List Vec3) (prev : Vec3) (t : ℝ) :
    (cumulative_length_loop prev l t).1.length = l.length := by
  induction l generalizing prev t with
  | nil => rfl
  | cons p rest ih => simp [cumulative_length_loop, ih]

/-- The first cumulative entry the loop writes is the incoming total plus the
length of the first remaining segment. -/
theorem cumulative_length_loop_getD_zero (l : List Vec3) (prev : Vec3) (t : ℝ)
    (h : 0 < l.length) :
    (cumulative_length_loop prev l t).1.getD 0 0 =
      t + (Vec3.sub (l.getD 0 default) prev).length := by
  cases l with
  | nil => simp at h
  | cons p rest => simp [cumulative_length_loop]

/-- Each later cumulative entry the loop writes is the previous entry plus the
length of the corresponding segment. -/
theorem cumulative_length_loop_getD_succ (l : List Vec3) (prev : Vec3) (t : ℝ)
    (j : ℕ) (h : j + 1 < l.length) :
    (cumulative_length_loop prev l t).1.getD (j + 1) 0 =
      (cumulative_length_loop prev l t).1.getD j 0 +
        (Vec3.sub (l.getD (j + 1) default) (l.getD j default)).length := by
  induction l generalizing prev t j with
  | nil => simp at h
  | cons p rest ih =>
    cases j with
    | zero =>
      simp only [List.length_cons] at h
      have hrest : 0 < rest.length := by omega
      simp only [cumulative_length_loop, List.getD_cons_succ, List.getD_cons_zero]
      rw [cumulative_length_loop_getD_zero rest p _ hrest]
    | succ k =>
      simp only [List.length_cons] at h
      simp only [cumulative_length_loop, List.getD_cons_succ]
      exact ih p _ k (by omega)

/-- The total the loop returns is the last entry of the cumulative list it
returns (the incoming total when no point remains). -/
theorem cumulative_length_loop_snd_eq_last (l : List Vec3) (prev : Vec3) (t : ℝ) :
    (cumulative_length_loop prev l t).2 =
      (t :: (cumulative_length_loop prev l t).1).getD l.length 0 := by
  induction l generalizing prev t with
  | nil => rfl
  | cons p rest ih =>
    simp only [cumulative_length_loop, List.length_cons, List.getD_cons_succ]
    exact ih p _

/-- The running total never decreases across the loop. -/
theorem cumulative_length_loop_le_snd (l : List Vec3) (prev : Vec3) (t : ℝ) :
    t ≤ (cumulative_length_loop prev l t).2 := by
  induction l generalizing prev t with
  | nil => exact le_refl t
  | cons p rest ih =>
    have h1 : t ≤ t + (Vec3.sub p prev).length :=
      le_add_of_nonneg_right (Vec3.length_nonneg _)
    exact h1.trans (ih p _)

/-- Every cumulative entry the loop writes lies between the incoming total and
the final total. -/
theorem cumulative_length_loop_mem_bounds (l : List Vec3) (prev : Vec3) (t : ℝ) :
    ∀ x ∈ (cumulative_length_loop prev l t).1,
      t ≤ x ∧ x ≤ (cumulative_length_loop prev l t).2 := by
  induction l generalizing prev t with
  | nil => intro x hx; simp [cumulative_length_loop] at hx
  | cons p rest ih =>
    intro x hx
    have hstep : t ≤ t + (Vec3.sub p prev).length :=
      le_add_of_nonneg_right (Vec3.length_nonneg _)
    simp only [cumulative_length_loop, List.mem_cons] at hx
    rcases hx with rfl | hx
    · exact ⟨hstep, cumulative_length_loop_le_snd _ _ _⟩
    · have := ih p (t + (Vec3.sub p prev).length) x hx
      exact ⟨hstep.trans this.1, this.2⟩

/-- C3: for every motion path with N >= 1 points,
compute_motion_path_cumulative_length returns a list of length N with
cumulative entry 0 equal to 0 and, for every i in 1..N-1, cumulative entry i
equal to cumulative entry i-1 plus the length of the vector from point i-1 to
point i. -/
theorem compute_motion_path_cumulative_length_spec (mp : MotionPath)
    (h : 1 ≤ mp.points.length) :
    (compute_motion_path_cumulative_length mp).1.length = mp.points.length ∧
    (compute_motion_path_cumulative_length mp).1.getD 0 0 = 0 ∧
    ∀ i, 1 ≤ i → i < mp.points.length →
      (compute_motion_path_cumulative_length mp).1.getD i 0 =
        (compute_motion_path_cumulative_length mp).1.getD (i - 1) 0 +
          (Vec3.sub (mp.points.getD i default)
            (mp.points.getD (i - 1) default)).length := by
  obtain ⟨pts, fs⟩ := mp
  cases pts with
  | nil => simp at h
  | cons p rest =>
    refine ⟨?_, rfl, ?_⟩
    · simp [compute_motion_path_cumulative_length,
        cumulative_length_loop_fst_length]
    · intro i h1 h2
      cases i with
      | zero => omega
      | succ j =>
        simp only [compute_motion_path_cumulative_length, List.length_cons,
          Nat.add_sub_cancel, List.getD_cons_succ, Nat.succ_sub_one] at h2 ⊢
        cases j with
        | zero =>
          simp only [List.getD_cons_zero]
          exact cumulative_length_loop_getD_zero rest p 0 (by omega)
        | succ k =>
          simp only [List.getD_cons_succ]
          exact cumulative_length_loop_getD_succ rest p 0 k (by omega)

/-- C4: for every motion path with N >= 1 points, the total length returned by
compute_motion_path_cumulative_length equals the last entry (index N-1) of the
returned cumulative list. -/
theorem compute_motion_path_total_eq_last (mp : MotionPath)
    (h : 1 ≤ mp.points.length) :
    (compute_motion_path_cumulative_length mp).2 =
      (compute_motion_path_cumulative_length mp).1.getD
        (mp.points.length - 1) 0 := by
  obtain ⟨pts, fs⟩ := mp
  cases pts with
  | nil => simp at h
  | cons p rest =>
    simp only [compute_motion_path_cumulative_length, List.length_cons,
      Nat.add_sub_cancel]
    exact cumulative_length_loop_snd_eq_last rest p 0

/-- Reading a mapped list inside its range reads the function at the mapped
entry. -/
theorem getD_map_of_lt {α β : Type} (f : α → β) (l : List α) (i : ℕ)
    (h : i < l.length) (d : β) (d' : α) :
    (l.map f).getD i d = f (l.getD i d') := by
  rw [List.getD_eq_getElem?_getD, List.getD_eq_getElem?_getD,
    List.getElem?_map, List.getElem?_eq_getElem h]
  rfl

/-- Reading a map over List.range inside its range reads the function at the
index. -/
theorem getD_map_range_of_lt {β : Type} (f : ℕ → β) (n i : ℕ) (h : i < n)
    (d : β) :
    ((List.range n).map f).getD i d = f i := by
  rw [getD_map_of_lt f (List.range n) i (by simpa using h) d 0,
    List.getD_eq_getElem?_getD, List.getElem?_range h]
  rfl

/-- The final total of compute_motion_path_cumulative_length is nonnegative
(a sum of square roots). -/
theorem compute_total_nonneg (mp : MotionPath) :
    0 ≤ (compute_motion_path_cumulative_length mp).2 := by
  obtain ⟨pts, fs⟩ := mp
  cases pts with
  | nil => exact le_refl 0
  | cons p rest =>
    exact cumulative_length_loop_le_snd rest p 0

/-- Every cumulative entry read by the keyframe loop is between 0 and the
final total (indices out of range read the default 0, for which the bounds
also hold). -/
theorem compute_cumulative_getD_bounds (mp : MotionPath) (s : ℕ) :
    0 ≤ (compute_motion_path_cumulative_length mp).1.getD s 0 ∧
      (compute_motion_path_cumulative_length mp).1.getD s 0 ≤
        (compute_motion_path_cumulative_length mp).2 := by
  obtain ⟨pts, fs⟩ := mp
  cases pts with
  | nil => simp [compute_motion_path_cumulative_length]
  | cons p rest =>
    simp only [compute_motion_path_cumulative_length]
    cases s with
    | zero =>
      exact ⟨le_refl 0, cumulative_length_loop_le_snd rest p 0⟩
    | succ j =>
      rw [List.getD_cons_succ]
      by_cases hj : j < (cumulative_length_loop p rest 0).1.length
      · rw [List.getD_eq_getElem?_getD, List.getElem?_eq_getElem hj]
        exact (cumulative_length_loop_mem_bounds rest p 0 _
          (List.getElem_mem hj))
      · rw [List.getD_eq_default _ _ (by omega)]
        exact ⟨le_refl 0, cumulative_length_loop_le_snd rest p 0⟩

/-- Consecutive cumulative entries are nondecreasing. -/
theorem compute_cumulative_getD_step (mp : MotionPath) (j : ℕ)
    (h : j + 1 < mp.points.length) :
    (compute_motion_path_cumulative_length mp).1.getD j 0 ≤
      (compute_motion_path_cumulative_length mp).1.getD (j + 1) 0 := by
  obtain ⟨pts, fs⟩ := mp
  cases pts with
  | nil => simp at h
  | cons p rest =>
    simp only [List.length_cons] at h
    simp only [compute_motion_path_cumulative_length, List.getD_cons_succ]
    cases j with
    | zero =>
      rw [List.getD_cons_zero,
        cumulative_length_loop_getD_zero rest p 0 (by omega)]
      have := Vec3.length_nonneg (Vec3.sub (rest.getD 0 default) p)
      linarith
    | succ k =>
      rw [List.getD_cons_succ,
        cumulative_length_loop_getD_succ rest p 0 k (by omega)]
      have := Vec3.length_nonneg
        (Vec3.sub (rest.getD (k + 1) default) (rest.getD k default))
      linarith

/-- Evaluation of create_curve_from_motion_path on a nonempty motion path
whose total length is nonzero: the run completes and yields the spline and
keyframes described in the definition. -/
theorem create_curve_cons_eq_some (p : Vec3) (rest : List Vec3) (fs : ℤ)
    (htot : (compute_motion_path_cumulative_length ⟨p :: rest, fs⟩).2 ≠ 0) :
    create_curve_from_motion_path ⟨p :: rest, fs⟩ =
      some
        { spline := bezier_spline_from_points (p :: rest)
          keyframes :=
            ⟨((fs : ℝ), 0), "LINEAR"⟩ ::
              (List.range rest.length).map (fun (segment_idx : ℕ) =>
                ⟨((segment_idx : ℝ) + 1,
                    (compute_motion_path_cumulative_length
                        ⟨p :: rest, fs⟩).1.getD segment_idx 0 /
                      (compute_motion_path_cumulative_length
                        ⟨p :: rest, fs⟩).2 * 100),
                  "LINEAR"⟩) } := by
  simp only [create_curve_from_motion_path]
  rw [if_neg (fun hc => htot hc.1)]

/-- Evaluation of create_curve_from_motion_path on a motion path with at least
one segment and total length zero: the run aborts (ZeroDivisionError). -/
theorem create_curve_cons_eq_none (p : Vec3) (rest : List Vec3) (fs : ℤ)
    (htot : (compute_motion_path_cumulative_length ⟨p :: rest, fs⟩).2 = 0)
    (hns : 1 ≤ rest.length) :
    create_curve_from_motion_path ⟨p :: rest, fs⟩ = none := by
  simp only [create_curve_from_motion_path]
  rw [if_pos ⟨htot, hns⟩]

/-- Inversion: a successful run of create_curve_from_motion_path forces a
nonempty motion path, rules out the zero-total-with-segments case, and
determines the spline and keyframes of the result. -/
theorem create_curve_some_inv (mp : MotionPath) (r : CurveResult)
    (h : create_curve_from_motion_path mp = some r) :
    1 ≤ mp.points.length ∧
    ¬((compute_motion_path_cumulative_length mp).2 = 0 ∧
        1 ≤ mp.points.length - 1) ∧
    r.spline = bezier_spline_from_points mp.points ∧
    r.keyframes =
      ⟨((mp.frame_start : ℝ), 0), "LINEAR"⟩ ::
        (List.range (mp.points.length - 1)).map (fun (segment_idx : ℕ) =>
          ⟨((segment_idx : ℝ) + 1,
              (compute_motion_path_cumulative_length mp).1.getD segment_idx 0 /
                (compute_motion_path_cumulative_length mp).2 * 100),
            "LINEAR"⟩) := by
  obtain ⟨pts, fs⟩ := mp
  cases pts with
  | nil => simp [create_curve_from_motion_path] at h
  | cons p rest =>
    simp only [create_curve_from_motion_path] at h
    by_cases hc :
        (compute_motion_path_cumulative_length ⟨p :: rest, fs⟩).2 = 0 ∧
          1 ≤ rest.length
    · rw [if_pos hc] at h
      exact absurd h (by simp)
    · rw [if_neg hc] at h
      have hr := (Option.some.injEq _ _ ▸ h).symm
      subst hr
      refine ⟨by simp, ?_, rfl, by simp⟩
      simpa using hc

/-- C5: every progress value in the eval_time keyframes written by a completed
run of create_curve_from_motion_path lies in the interval 0..100. -/
theorem create_curve_progress_in_unit_range (mp : MotionPath) (r : CurveResult)
    (h : create_curve_from_motion_path mp = some r) :
    ∀ kf ∈ r.keyframes, 0 ≤ kf.co.2 ∧ kf.co.2 ≤ 100 := by
  obtain ⟨hN, hguard, _, hkf⟩ := create_curve_some_inv mp r h
  intro kf hmem
  rw [hkf] at hmem
  rcases List.mem_cons.mp hmem with rfl | hmem
  · norm_num
  · obtain ⟨s, hs, rfl⟩ := List.mem_map.mp hmem
    have hs' : s < mp.points.length - 1 := List.mem_range.mp hs
    have hns : 1 ≤ mp.points.length - 1 := by omega
    have htne : (compute_motion_path_cumulative_length mp).2 ≠ 0 :=
      fun h0 => hguard ⟨h0, hns⟩
    have htpos : 0 < (compute_motion_path_cumulative_length mp).2 :=
      lt_of_le_of_ne (compute_total_nonneg mp) (Ne.symm htne)
    obtain ⟨hc0, hcT⟩ := compute_cumulative_getD_bounds mp s
    dsimp only
    constructor
    · exact mul_nonneg (div_nonneg hc0 htpos.le) (by norm_num)
    · have h1 : (compute_motion_path_cumulative_length mp).1.getD s 0 /
          (compute_motion_path_cumulative_length mp).2 ≤ 1 :=
        (div_le_one htpos).mpr hcT
      calc (compute_motion_path_cumulative_length mp).1.getD s 0 /
            (compute_motion_path_cumulative_length mp).2 * 100
          ≤ 1 * 100 := mul_le_mul_of_nonneg_right h1 (by norm_num)
        _ = 100 := one_mul 100

/-- C6: the progress values of the eval_time keyframes written by a completed
run of create_curve_from_motion_path are nondecreasing in keyframe index. -/
theorem create_curve_progress_monotone (mp : MotionPath) (r : CurveResult)
    (h : create_curve_from_motion_path mp = some r) :
    ∀ i, i + 1 < r.keyframes.length →
      (r.keyframes.getD i default).co.2 ≤
        (r.keyframes.getD (i + 1) default).co.2 := by
  obtain ⟨hN, hguard, _, hkf⟩ := create_curve_some_inv mp r h
  intro i hlen
  rw [hkf] at hlen ⊢
  simp only [List.length_cons, List.length_map, List.length_range] at hlen
  have hns : 1 ≤ mp.points.length - 1 := by omega
  have htne : (compute_motion_path_cumulative_length mp).2 ≠ 0 :=
    fun h0 => hguard ⟨h0, hns⟩
  have htpos : 0 < (compute_motion_path_cumulative_length mp).2 :=
    lt_of_le_of_ne (compute_total_nonneg mp) (Ne.symm htne)
  cases i with
  | zero =>
    rw [List.getD_cons_zero, List.getD_cons_succ,
      getD_map_range_of_lt _ _ _ (show 0 < mp.points.length - 1 by omega) _]
    dsimp only
    exact mul_nonneg (div_nonneg (compute_cumulative_getD_bounds mp 0).1
      htpos.le) (by norm_num)
  | succ j =>
    rw [List.getD_cons_succ, List.getD_cons_succ,
      getD_map_range_of_lt _ _ _ (show j < mp.points.length - 1 by omega) _,
      getD_map_range_of_lt _ _ _ (show j + 1 < mp.points.length - 1 by omega) _]
    dsimp only
    have hstep := compute_cumulative_getD_step mp j (by omega)
    have hdiv : (compute_motion_path_cumulative_length mp).1.getD j 0 /
        (compute_motion_path_cumulative_length mp).2 ≤
          (compute_motion_path_cumulative_length mp).1.getD (j + 1) 0 /
            (compute_motion_path_cumulative_length mp).2 :=
      div_le_div_of_nonneg_right hstep htpos.le
    exact mul_le_mul_of_nonneg_right hdiv (by norm_num)

/-- C9: the spline built by create_curve_from_motion_path is a single BEZIER
spline with one control point per motion-path point, each carrying the
motion-path coordinate and AUTO handle types; a completed run returns exactly
this spline. -/
theorem create_curve_bezier_spline_spec (mp : MotionPath)
    (h : 1 ≤ mp.points.length) :
    (bezier_spline_from_points mp.points).type = "BEZIER" ∧
    (bezier_spline_from_points mp.points).bezier_points.length =
      mp.points.length ∧
    (∀ i, i < mp.points.length →
      ((bezier_spline_from_points mp.points).bezier_points.getD i
          default).co = mp.points.getD i default ∧
      ((bezier_spline_from_points mp.points).bezier_points.getD i
          default).handle_left_type = "AUTO" ∧
      ((bezier_spline_from_points mp.points).bezier_points.getD i
          default).handle_right_type = "AUTO") ∧
    ∀ r, create_curve_from_motion_path mp = some r →
      r.spline = bezier_spline_from_points mp.points := by
  refine ⟨rfl, by simp [bezier_spline_from_points], ?_, ?_⟩
  · intro i hi
    simp only [bezier_spline_from_points]
    rw [getD_map_of_lt (fun point => (⟨point, "AUTO", "AUTO"⟩ : BezierPoint))
      mp.points i hi default default]
    exact ⟨rfl, rfl, rfl⟩
  · intro r hr
    exact (create_curve_some_inv mp r hr).2.2.1

/-- C10: in the keyframes written by a completed run of
create_curve_from_motion_path on a path of at least two points, keyframe 0
sits at frame frame_start while keyframe i sits at frame i for every
i in 1..N-1, whatever frame_start is. -/
theorem create_curve_keyframe_frames_spec (mp : MotionPath) (r : CurveResult)
    (h2 : 2 ≤ mp.points.length)
    (h : create_curve_from_motion_path mp = some r) :
    (r.keyframes.getD 0 default).co.1 = (mp.frame_start : ℝ) ∧
    ∀ i, 1 ≤ i → i < r.keyframes.length →
      (r.keyframes.getD i default).co.1 = (i : ℝ) := by
  obtain ⟨hN, _, _, hkf⟩ := create_curve_some_inv mp r h
  constructor
  · rw [hkf]; rfl
  · intro i h1 hlen
    rw [hkf] at hlen ⊢
    simp only [List.length_cons, List.length_map, List.length_range] at hlen
    cases i with
    | zero => omega
    | succ j =>
      rw [List.getD_cons_succ,
        getD_map_range_of_lt _ _ _ (show j < mp.points.length - 1 by omega) _]
      dsimp only
      push_cast
      ring

/-- Arc lengths of the two-point unit path: cumulative list of 0 and 1, total
1. -/
theorem compute_unit_eq :
    compute_motion_path_cumulative_length ⟨[v000, v100], 1⟩ = ([0, 1], 1) := by
  simp [compute_motion_path_cumulative_length, cumulative_length_loop,
    v000, v100, Vec3.sub, Vec3.length]

/-- Arc lengths of the degenerate two-point path: cumulative list of 0 and 0,
total 0. -/
theorem compute_zero_eq :
    compute_motion_path_cumulative_length ⟨[v000, v000], 1⟩ = ([0, 0], 0) := by
  simp [compute_motion_path_cumulative_length, cumulative_length_loop,
    v000, Vec3.sub, Vec3.length]

/-- Full evaluation of create_curve_from_motion_path on the two-point unit
path: it completes, and both eval_time keyframes carry the progress value 0
(the second keyframe reads cumulative entry 0). -/
theorem create_unit_eq :
    create_curve_from_motion_path ⟨[v000, v100], 1⟩ = some unitCurveResult := by
  have htot :
      (compute_motion_path_cumulative_length ⟨[v000, v100], 1⟩).2 ≠ 0 := by
    rw [compute_unit_eq]
    norm_num
  rw [create_curve_cons_eq_some v000 [v100] 1 htot]
  simp [unitCurveResult, compute_unit_eq, List.range_succ]

/-- C1 (code slip at lines 59-66): on the two-point unit path, the eval-time
keyframe at point index 1 receives the progress value 0, because the loop
reads cumulative_lengths at segment_idx while writing the keyframe at
segment_idx + 1; the spec formula cumulative[1] / total * 100 evaluates to 100
at that index, so the final keyframe never reaches the end of the curve. -/
theorem create_curve_keyframe_off_by_one :
    (create_curve_from_motion_path ⟨[v000, v100], 1⟩).map
        (fun r => (r.keyframes.getD 1 default).co.2) = some 0 ∧
    (compute_motion_path_cumulative_length ⟨[v000, v100], 1⟩).1.getD 1 0 /
        (compute_motion_path_cumulative_length ⟨[v000, v100], 1⟩).2 * 100 =
      100 := by
  constructor
  · rw [create_unit_eq]
    simp [unitCurveResult]
  · rw [compute_unit_eq]
    norm_num

/-- C2 (missing guard): on a motion path of two coincident points the total
length is 0 and create_curve_from_motion_path does not complete: the division
at line 60 is unguarded and raises ZeroDivisionError in the first loop
iteration. -/
theorem create_curve_zero_total_zero_division :
    create_curve_from_motion_path ⟨[v000, v000], 1⟩ = none := by
  apply create_curve_cons_eq_none v000 [v000] 1
  · rw [compute_zero_eq]
  · norm_num

/-- Witness for C3: the cumulative-length recurrence instantiated on the
two-point unit path. -/
theorem compute_motion_path_cumulative_length_spec_witness :
    1 ≤ (MotionPath.mk [v000, v100] 1).points.length ∧
    ((compute_motion_path_cumulative_length ⟨[v000, v100], 1⟩).1.length =
        (MotionPath.mk [v000, v100] 1).points.length ∧
      (compute_motion_path_cumulative_length ⟨[v000, v100], 1⟩).1.getD 0 0 =
        0 ∧
      ∀ i, 1 ≤ i → i < (MotionPath.mk [v000, v100] 1).points.length →
        (compute_motion_path_cumulative_length ⟨[v000, v100], 1⟩).1.getD i 0 =
          (compute_motion_path_cumulative_length
              ⟨[v000, v100], 1⟩).1.getD (i - 1) 0 +
            (Vec3.sub ((MotionPath.mk [v000, v100] 1).points.getD i default)
              ((MotionPath.mk [v000, v100] 1).points.getD
                (i - 1) default)).length) :=
  ⟨by simp, compute_motion_path_cumulative_length_spec ⟨[v000, v100], 1⟩
    (by simp)⟩

/-- Witness for C4: the total-equals-last-entry property instantiated on the
two-point unit path. -/
theorem compute_motion_path_total_eq_last_witness :
    1 ≤ (MotionPath.mk [v000, v100] 1).points.length ∧
    (compute_motion_path_cumulative_length ⟨[v000, v100], 1⟩).2 =
      (compute_motion_path_cumulative_length ⟨[v000, v100], 1⟩).1.getD
        ((MotionPath.mk [v000, v100] 1).points.length - 1) 0 :=
  ⟨by simp, compute_motion_path_total_eq_last ⟨[v000, v100], 1⟩ (by simp)⟩

/-- Witness for C5: the progress bounds instantiated on the completed run on
the two-point unit path. -/
theorem create_curve_progress_in_unit_range_witness :
    create_curve_from_motion_path ⟨[v000, v100], 1⟩ = some unitCurveResult ∧
    ∀ kf ∈ unitCurveResult.keyframes, 0 ≤ kf.co.2 ∧ kf.co.2 ≤ 100 :=
  ⟨create_unit_eq,
    create_curve_progress_in_unit_range ⟨[v000, v100], 1⟩ unitCurveResult
      create_unit_eq⟩

/-- Witness for C6: monotone progress instantiated on the completed run on the
two-point unit path. -/
theorem create_curve_progress_monotone_witness :
    create_curve_from_motion_path ⟨[v000, v100], 1⟩ = some unitCurveResult ∧
    ∀ i, i + 1 < unitCurveResult.keyframes.length →
      (unitCurveResult.keyframes.getD i default).co.2 ≤
        (unitCurveResult.keyframes.getD (i + 1) default).co.2 :=
  ⟨create_unit_eq,
    create_curve_progress_monotone ⟨[v000, v100], 1⟩ unitCurveResult
      create_unit_eq⟩

/-- Witness for C9: the bezier-spline description instantiated on the
two-point unit path. -/
theorem create_curve_bezier_spline_spec_witness :
    1 ≤ (MotionPath.mk [v000, v100] 1).points.length ∧
    ((bezier_spline_from_points
          (MotionPath.mk [v000, v100] 1).points).type = "BEZIER" ∧
      (bezier_spline_from_points
          (MotionPath.mk [v000, v100] 1).points).bezier_points.length =
        (MotionPath.mk [v000, v100] 1).points.length ∧
      (∀ i, i < (MotionPath.mk [v000, v100] 1).points.length →
        ((bezier_spline_from_points
            (MotionPath.mk [v000, v100] 1).points).bezier_points.getD i
              default).co =
            (MotionPath.mk [v000, v100] 1).points.getD i default ∧
        ((bezier_spline_from_points
            (MotionPath.mk [v000, v100] 1).points).bezier_points.getD i
              default).handle_left_type = "AUTO" ∧
        ((bezier_spline_from_points
            (MotionPath.mk [v000, v100] 1).points).bezier_points.getD i
              default).handle_right_type = "AUTO") ∧
      ∀ r, create_curve_from_motion_path ⟨[v000, v100], 1⟩ = some r →
        r.spline =
          bezier_spline_from_points (MotionPath.mk [v000, v100] 1).points) :=
  ⟨by simp, create_curve_bezier_spline_spec ⟨[v000, v100], 1⟩ (by simp)⟩

/-- Witness for C10: keyframe frame coordinates instantiated on the completed
run on the two-point unit path. -/
theorem create_curve_keyframe_frames_spec_witness :
    2 ≤ (MotionPath.mk [v000, v100] 1).points.length ∧
    create_curve_from_motion_path ⟨[v000, v100], 1⟩ = some unitCurveResult ∧
    ((unitCurveResult.keyframes.getD 0 default).co.1 =
        ((MotionPath.mk [v000, v100] 1).frame_start : ℝ) ∧
      ∀ i, 1 ≤ i → i < unitCurveResult.keyframes.length →
        (unitCurveResult.keyframes.getD i default).co.1 = (i : ℝ)) :=
  ⟨by simp, create_unit_eq,
    create_curve_keyframe_frames_spec ⟨[v000, v100], 1⟩ unitCurveResult
      (by simp) create_unit_eq⟩

/-- The selection scan on a two-object selection of one curve and one
non-curve yields that curve and that target, in either selection order. -/
theorem find_curve_and_target_pair (c t : TransferObject)
    (hc : c.type = "CURVE") (ht : t.type ≠ "CURVE") :
    find_curve_and_target [c, t] = (some c, some t) ∧
    find_curve_and_target [t, c] = (some c, some t) := by
  constructor <;> simp [find_curve_and_target, hc, ht]

/-- Evaluation of transfer_curve_animation_execute on a valid selection: the
run finishes and writes the location FCurve described in the definition. -/
theorem transfer_execute_finished (axis : Axis)
    (objs : List TransferObject) (c t : TransferObject) (s : SplineData)
    (ad : AnimationDataModel) (act : ActionModel) (fev : FCurveModel)
    (hlen : objs.length = 2)
    (hfct : find_curve_and_target objs = (some c, some t))
    (hs : c.splines = [s])
    (had : c.animation_data = some ad)
    (hact : ad.action = some act)
    (hfind : act.fcurves.find?
        (fun f => f.data_path == "eval_time" && f.array_index == 0) =
      some fev) :
    transfer_curve_animation_execute axis objs =
      ⟨.FINISHED, true,
        some ⟨"location", axis.location_index,
          (List.range fev.keyframe_points.length).map (fun (i : ℕ) =>
            ⟨((i : ℝ),
                if axis.is_negative then
                  -((fev.keyframe_points.getD i default).co.2 / 100 *
                    s.calc_length)
                else
                  (fev.keyframe_points.getD i default).co.2 / 100 *
                    s.calc_length),
              "LINEAR"⟩)⟩⟩ := by
  unfold transfer_curve_animation_execute
  rw [if_neg (show ¬(objs.length ≠ 2) by simp [hlen])]
  rw [hfct]
  dsimp only
  rw [hs]
  dsimp only
  rw [had]
  dsimp only
  rw [hact]
  dsimp only
  rw [hfind]

/-- On a valid selection, the written location FCurve has the channel index
determined by the axis and the keyframe values of the eval_time FCurve scaled
by the spline length over 100, negated exactly for the NEG axes. -/
theorem transfer_execute_finished_props (axis : Axis)
    (objs : List TransferObject) (c t : TransferObject) (s : SplineData)
    (ad : AnimationDataModel) (act : ActionModel) (fev : FCurveModel)
    (hlen : objs.length = 2)
    (hfct : find_curve_and_target objs = (some c, some t))
    (hs : c.splines = [s])
    (had : c.animation_data = some ad)
    (hact : ad.action = some act)
    (hfind : act.fcurves.find?
        (fun f => f.data_path == "eval_time" && f.array_index == 0) =
      some fev) :
    ∃ fl,
      (transfer_curve_animation_execute axis objs).status = .FINISHED ∧
      (transfer_curve_animation_execute axis objs).target_animation =
        some fl ∧
      ((axis = .POS_X ∨ axis = .NEG_X) → fl.array_index = 0) ∧
      ((axis = .POS_Y ∨ axis = .NEG_Y) → fl.array_index = 1) ∧
      ((axis = .POS_Z ∨ axis = .NEG_Z) → fl.array_index = 2) ∧
      fl.keyframe_points.length = fev.keyframe_points.length ∧
      ∀ i, i < fev.keyframe_points.length →
        (fl.keyframe_points.getD i default).co.2 =
          if axis = .NEG_X ∨ axis = .NEG_Y ∨ axis = .NEG_Z then
            -((fev.keyframe_points.getD i default).co.2 / 100 *
              s.calc_length)
          else
            (fev.keyframe_points.getD i default).co.2 / 100 *
              s.calc_length := by
  rw [transfer_execute_finished axis objs c t s ad act fev hlen hfct hs had
    hact hfind]
  refine ⟨_, rfl, rfl, ?_, ?_, ?_, by simp, ?_⟩
  · rintro (rfl | rfl) <;> rfl
  · rintro (rfl | rfl) <;> rfl
  · rintro (rfl | rfl) <;> rfl
  · intro i hi
    rw [getD_map_range_of_lt _ _ _ hi _]
    dsimp only
    cases axis <;> simp [Axis.is_negative]

/-- C7: for every valid invocation of
OBJECT_OT_transfer_curve_animation.execute (a selection, in either order, of
one curve with one spline and an eval_time FCurve plus one non-curve target),
the written location keyframe i has value
eval_time keyframe i value / 100 * curve_length, negated exactly when the
axis is one of NEG_X, NEG_Y, NEG_Z, on channel index 0, 1 or 2 for the X, Y
or Z axis respectively. -/
theorem transfer_curve_animation_execute_spec (axis : Axis)
    (selected_objects : List TransferObject) (c t : TransferObject)
    (s : SplineData) (ad : AnimationDataModel) (act : ActionModel)
    (fev : FCurveModel)
    (horder : selected_objects = [c, t] ∨ selected_objects = [t, c])
    (hc : c.type = "CURVE") (ht : t.type ≠ "CURVE")
    (hs : c.splines = [s])
    (had : c.animation_data = some ad)
    (hact : ad.action = some act)
    (hfind : act.fcurves.find?
        (fun f => f.data_path == "eval_time" && f.array_index == 0) =
      some fev) :
    ∃ fl,
      (transfer_curve_animation_execute axis selected_objects).status =
        .FINISHED ∧
      (transfer_curve_animation_execute axis
          selected_objects).target_animation = some fl ∧
      ((axis = .POS_X ∨ axis = .NEG_X) → fl.array_index = 0) ∧
      ((axis = .POS_Y ∨ axis = .NEG_Y) → fl.array_index = 1) ∧
      ((axis = .POS_Z ∨ axis = .NEG_Z) → fl.array_index = 2) ∧
      fl.keyframe_points.length = fev.keyframe_points.length ∧
      ∀ i, i < fev.keyframe_points.length →
        (fl.keyframe_points.getD i default).co.2 =
          if axis = .NEG_X ∨ axis = .NEG_Y ∨ axis = .NEG_Z then
            -((fev.keyframe_points.getD i default).co.2 / 100 *
              s.calc_length)
          else
            (fev.keyframe_points.getD i default).co.2 / 100 *
              s.calc_length := by
  rcases horder with rfl | rfl
  · exact transfer_execute_finished_props axis _ c t s ad act fev rfl
      (find_curve_and_target_pair c t hc ht).1 hs had hact hfind
  · exact transfer_execute_finished_props axis _ c t s ad act fev rfl
      (find_curve_and_target_pair c t hc ht).2 hs had hact hfind

/-- Witness for C7: the transfer description instantiated on a concrete valid
selection, with axis NEG_Y. -/
theorem transfer_curve_animation_execute_spec_witness :
    ([curveObj, meshObj] = [curveObj, meshObj] ∨
      [curveObj, meshObj] = [meshObj, curveObj]) ∧
    curveObj.type = "CURVE" ∧
    meshObj.type ≠ "CURVE" ∧
    curveObj.splines = [⟨2⟩] ∧
    curveObj.animation_data = some ⟨some ⟨[evalTimeFCurve]⟩⟩ ∧
    (AnimationDataModel.mk (some ⟨[evalTimeFCurve]⟩)).action =
      some ⟨[evalTimeFCurve]⟩ ∧
    (ActionModel.mk [evalTimeFCurve]).fcurves.find?
        (fun f => f.data_path == "eval_time" && f.array_index == 0) =
      some evalTimeFCurve ∧
    ∃ fl,
      (transfer_curve_animation_execute .NEG_Y
          [curveObj, meshObj]).status = .FINISHED ∧
      (transfer_curve_animation_execute .NEG_Y
          [curveObj, meshObj]).target_animation = some fl ∧
      ((Axis.NEG_Y = .POS_X ∨ Axis.NEG_Y = .NEG_X) → fl.array_index = 0) ∧
      ((Axis.NEG_Y = .POS_Y ∨ Axis.NEG_Y = .NEG_Y) → fl.array_index = 1) ∧
      ((Axis.NEG_Y = .POS_Z ∨ Axis.NEG_Y = .NEG_Z) → fl.array_index = 2) ∧
      fl.keyframe_points.length = evalTimeFCurve.keyframe_points.length ∧
      ∀ i, i < evalTimeFCurve.keyframe_points.length →
        (fl.keyframe_points.getD i default).co.2 =
          if Axis.NEG_Y = .NEG_X ∨ Axis.NEG_Y = .NEG_Y ∨
              Axis.NEG_Y = .NEG_Z then
            -((evalTimeFCurve.keyframe_points.getD i default).co.2 / 100 *
              SplineData.calc_length ⟨2⟩)
          else
            (evalTimeFCurve.keyframe_points.getD i default).co.2 / 100 *
              SplineData.calc_length ⟨2⟩ :=
  ⟨Or.inl rfl, rfl, by decide, rfl, rfl, rfl, rfl,
    transfer_curve_animation_execute_spec .NEG_Y [curveObj, meshObj]
      curveObj meshObj ⟨2⟩ ⟨some ⟨[evalTimeFCurve]⟩⟩ ⟨[evalTimeFCurve]⟩
      evalTimeFCurve (Or.inl rfl) rfl (by decide) rfl rfl rfl rfl⟩

/-- C8 (unhandled branch of the validation chain): when the selected curve has
animation data and an action but no eval_time FCurve, fcurves.find at line 173
returns None without raising, so the except at line 176 does not fire; execute
then creates a new action (line 181), assigns it to the target (lines
182-183), creates the location FCurve (line 185) and raises an uncaught
AttributeError at line 197, instead of reporting an error and returning
CANCELLED with the target untouched. -/
theorem transfer_missing_eval_time_uncaught :
    transfer_curve_animation_execute .POS_X [curveObjNoEval, meshObj] =
      ⟨.EXCEPTION_raised, true, some ⟨"location", 0, []⟩⟩ ∧
    (transfer_curve_animation_execute .POS_X
        [curveObjNoEval, meshObj]).status ≠ .CANCELLED ∧
    (transfer_curve_animation_execute .POS_X
        [curveObjNoEval, meshObj]).target_animation ≠ none ∧
    (transfer_curve_animation_execute .POS_X
        [curveObjNoEval, meshObj]).new_action_created = true := by
  have h : transfer_curve_animation_execute .POS_X
      [curveObjNoEval, meshObj] =
      ⟨.EXCEPTION_raised, true, some ⟨"location", 0, []⟩⟩ := by
    simp [transfer_curve_animation_execute, find_curve_and_target,
      curveObjNoEval, meshObj, Axis.location_index]
  refine ⟨h, ?_, ?_, ?_⟩ <;> rw [h] <;> simp
